import Mathlib

set_option maxRecDepth 1000000

/-!
Verification of the CPU Ceepos payment provider
(`payments/providers/cpu_ceepos.py`) against its natural-language
specification.  The Python code is shallowly embedded below: payloads are
ordered association lists (Python 3.7+ dicts preserve insertion order),
machine behaviour that raises exceptions is modelled with `Except`, the
in-place list mutation of `calculate_checksum` is modelled by returning the
post-call list, and the outbound HTTP call is a function parameter.
SHA-256 is implemented executably over `Nat` so that concrete digests can
be checked against the test vectors found in the repository.
-/

namespace Ceepos

/-! ### SHA-256 over byte lists (bytes and 32-bit words as `Nat`) -/

/-- Truncate to a 32-bit word. -/
def w32 (n : Nat) : Nat := n % 4294967296

/-- Right rotation of a 32-bit word. -/
def rotr (x n : Nat) : Nat := w32 ((x <<< (32 - n)) ||| (x >>> n))

def bsig0 (x : Nat) : Nat := rotr x 22 ^^^ (rotr x 13 ^^^ rotr x 2)

def bsig1 (x : Nat) : Nat := rotr x 25 ^^^ (rotr x 11 ^^^ rotr x 6)

def ssig0 (x : Nat) : Nat := (x >>> 3) ^^^ (rotr x 18 ^^^ rotr x 7)

def ssig1 (x : Nat) : Nat := (x >>> 10) ^^^ (rotr x 19 ^^^ rotr x 17)

def chf (x y z : Nat) : Nat := (x &&& y) ^^^ ((4294967295 ^^^ x) &&& z)

def majf (x y z : Nat) : Nat := (y &&& z) ^^^ ((x &&& z) ^^^ (x &&& y))

/-- The 64 SHA-256 round constants. -/
def K256 : List Nat :=
  [1116352408, 1899447441, 3049323471, 3921009573,
   961987163, 1508970993, 2453635748, 2870763221,
   3624381080, 310598401, 607225278, 1426881987,
   1925078388, 2162078206, 2614888103, 3248222580,
   3835390401, 4022224774, 264347078, 604807628,
   770255983, 1249150122, 1555081692, 1996064986,
   2554220882, 2821834349, 2952996808, 3210313671,
   3336571891, 3584528711, 113926993, 338241895,
   666307205, 773529912, 1294757372, 1396182291,
   1695183700, 1986661051, 2177026350, 2456956037,
   2730485921, 2820302411, 3259730800, 3345764771,
   3516065817, 3600352804, 4094571909, 275423344,
   430227734, 506948616, 659060556, 883997877,
   958139571, 1322822218, 1537002063, 1747873779,
   1955562222, 2024104815, 2227730452, 2361852424,
   2428436474, 2756734187, 3204031479, 3329325298]

/-- Initial SHA-256 hash state. -/
def H256 : List Nat :=
  [1779033703, 3144134277, 1013904242, 2773480762,
   1359893119, 2600822924, 528734635, 1541459225]

/-- Big-endian 8-byte rendering of a length in bits. -/
def beBytes8 (n : Nat) : List Nat :=
  [(n >>> 56) % 256, (n >>> 48) % 256, (n >>> 40) % 256, (n >>> 32) % 256,
   (n >>> 24) % 256, (n >>> 16) % 256, (n >>> 8) % 256, n % 256]

/-- SHA-256 padding: append 0x80, zeros to 56 mod 64, then the bit length. -/
def sha256pad (msg : List Nat) : List Nat :=
  let k := (msg.length + 1) % 64
  msg ++ [0x80] ++ List.replicate ((120 - k) % 64) 0 ++ beBytes8 (msg.length * 8)

/-- Group bytes into big-endian 32-bit words. -/
def bytesToWords : List Nat → List Nat
  | a :: b :: c :: d :: rest => (((a * 256 + b) * 256 + c) * 256 + d) :: bytesToWords rest
  | _ => []

/-- Extend the message schedule; `acc` holds the words most-recent-first. -/
def extendW : Nat → List Nat → List Nat
  | 0, acc => acc
  | t + 1, acc =>
      extendW t
        (w32 (ssig1 (acc.getD 1 0) + acc.getD 6 0 + ssig0 (acc.getD 14 0) + acc.getD 15 0) :: acc)

structure Sha256State where
  a : Nat
  b : Nat
  c : Nat
  d : Nat
  e : Nat
  f : Nat
  g : Nat
  h : Nat

/-- One SHA-256 compression round; `kw` is the (constant, schedule word) pair. -/
def sha256Round (st : Sha256State) (kw : Nat × Nat) : Sha256State :=
  let t1 := w32 (st.h + bsig1 st.e + chf st.e st.f st.g + kw.1 + kw.2)
  let t2 := w32 (bsig0 st.a + majf st.a st.b st.c)
  ⟨w32 (t1 + t2), st.a, st.b, st.c, w32 (st.d + t1), st.e, st.f, st.g⟩

/-- Process one 64-byte block. -/
def sha256Block (hs : List Nat) (block : List Nat) : List Nat :=
  let ws := (extendW 48 (bytesToWords block).reverse).reverse
  let st : Sha256State :=
    ⟨hs.getD 0 0, hs.getD 1 0, hs.getD 2 0, hs.getD 3 0,
     hs.getD 4 0, hs.getD 5 0, hs.getD 6 0, hs.getD 7 0⟩
  let fin := (K256.zip ws).foldl sha256Round st
  [w32 (hs.getD 0 0 + fin.a), w32 (hs.getD 1 0 + fin.b),
   w32 (hs.getD 2 0 + fin.c), w32 (hs.getD 3 0 + fin.d),
   w32 (hs.getD 4 0 + fin.e), w32 (hs.getD 5 0 + fin.f),
   w32 (hs.getD 6 0 + fin.g), w32 (hs.getD 7 0 + fin.h)]

/-- Fold over all 64-byte blocks; the fuel is an upper bound on the block count. -/
def sha256Blocks : Nat → List Nat → List Nat → List Nat
  | 0, hs, _ => hs
  | _ + 1, hs, [] => hs
  | fuel + 1, hs, bytes => sha256Blocks fuel (sha256Block hs (bytes.take 64)) (bytes.drop 64)

/-- SHA-256 of a byte list, as eight 32-bit words. -/
def sha256 (msg : List Nat) : List Nat :=
  let p := sha256pad msg
  sha256Blocks p.length H256 p

def hexChar (n : Nat) : Char :=
  if n < 10 then Char.ofNat (48 + n) else Char.ofNat (87 + n)

/-- Lowercase hex rendering of a 32-bit word, 8 digits. -/
def wordHex (n : Nat) : List Char :=
  [hexChar ((n >>> 28) % 16), hexChar ((n >>> 24) % 16), hexChar ((n >>> 20) % 16),
   hexChar ((n >>> 16) % 16), hexChar ((n >>> 12) % 16), hexChar ((n >>> 8) % 16),
   hexChar ((n >>> 4) % 16), hexChar (n % 16)]

/-- Python `hashlib.sha256(bytes).hexdigest()`. -/
def sha256hex (msg : List Nat) : String :=
  String.mk (((sha256 msg).map wordHex).flatten)

/-- UTF-8 encoding of one character, as bytes. -/
def utf8Char (ch : Char) : List Nat :=
  let n := ch.toNat
  if n < 0x80 then [n]
  else if n < 0x800 then [0xc0 ||| (n >>> 6), 0x80 ||| (n &&& 0x3f)]
  else if n < 0x10000 then
    [0xe0 ||| (n >>> 12), 0x80 ||| ((n >>> 6) &&& 0x3f), 0x80 ||| (n &&& 0x3f)]
  else
    [0xf0 ||| (n >>> 18), 0x80 ||| ((n >>> 12) &&& 0x3f),
     0x80 ||| ((n >>> 6) &&& 0x3f), 0x80 ||| (n &&& 0x3f)]

/-- Python `string.encode("utf-8")`. -/
def utf8Encode (s : String) : List Nat :=
  (s.data.map utf8Char).flatten

/-! ### Values, payloads and dict lookups -/

/-- A scalar JSON / payload value as used by the provider: the payload and
the messages of the processor only carry strings and integers. -/
inductive Value where
  | str (s : String)
  | int (n : Int)
deriving DecidableEq

/-- Python `str(value)`: strings render as themselves, integers in base 10
with a leading minus sign when negative. -/
def valueStr : Value → String
  | .str s => s
  | .int n => toString n

/-- A decoded JSON object / parsed request parameters: an ordered
association list, mirroring a Python dict with its insertion order. -/
abbrev Data := List (String × Value)

/-- Python `data[key]` / `key in data` on a dict (keys are unique, so the
first match is the binding). -/
def lookupData (data : Data) (key : String) : Option Value :=
  (List.find? (fun p => p.1 = key) data).map (fun p => p.2)

/-- A payload field: a scalar, or a list of ordered mappings (the
`Products` field). -/
inductive Field where
  | scalar (v : Value)
  | list (items : List (List (String × Value)))
deriving DecidableEq

/-- The outbound payload: an ordered mapping of field name to field,
mirroring the Python dict built by `initiate_payment`. -/
abbrev Payload := List (String × Field)

def lookupField (payload : Payload) (key : String) : Option Field :=
  (List.find? (fun p => p.1 = key) payload).map (fun p => p.2)

deriving instance DecidableEq for Except

/-! ### Errors -/

/-- Exceptions that can be raised by the embedded code.  The first six are
the payment-specific exception classes from `payments/exceptions.py`;
`valueError` is the built-in `ValueError` raised for an unsupported tax
percentage, `keyError` a built-in `KeyError` from a missing dict key, and
`orderStateTransition` is `OrderStateTransitionError`. -/
inductive PyError where
  | payloadValidation
  | paymentCreationFailed
  | duplicateOrder
  | serviceUnavailable
  | unknownReturnCode
  | orderStateTransition
  | valueError
  | keyError
  | typeError
deriving DecidableEq

/-! ### Checksum engine -/

/-- Provider configuration: the three Ceepos settings plus the two URLs
produced by the base provider (`get_success_url` / `get_notify_url`). -/
structure Config where
  apiKey : String
  secret : String
  successUrl : String
  notifyUrl : String
deriving DecidableEq

/-- Method `calculate_checksum(self, param_values, secret)`.  The Python method
mutates its argument: `param_values.append(secret)` runs before the values
are joined with `&` and hashed.  The returned pair is (digest, the list
contents of the list object after the call). -/
def calculate_checksum (param_values : List Value) (secret : String) :
    String × List Value :=
  let vals := param_values ++ [Value.str secret]
  (sha256hex (utf8Encode (String.intercalate "&" (vals.map valueStr))), vals)

/-- Python `hmac.compare_digest` on two hex strings: functionally string equality
(its constant-time execution is a timing property outside this embedding). -/
def compare_digest (x y : String) : Bool := x = y

/-- Method `_validate_payload(self, data, params)`: reads `data["Hash"]` (raising
`KeyError` when absent), gathers `[data[x] for x in params if x in data]`,
recomputes the checksum with the configured secret and compares.  An
integer `Hash` would make `hmac.compare_digest` raise `TypeError`; inbound
HTTP parameters are always strings, so that branch is unreachable for
requests. -/
def _validate_payload (cfg : Config) (data : Data) (params : List String) :
    Except PyError Bool :=
  match lookupData data "Hash" with
  | none => .error .keyError
  | some hv =>
      let vals := params.filterMap (fun x => lookupData data x)
      let correct := (calculate_checksum vals cfg.secret).1
      match hv with
      | .str received => .ok (compare_digest received correct)
      | .int _ => .error .typeError

/-- The module constant `RESPONSE_CHECKSUM_PARAMS`. -/
def RESPONSE_CHECKSUM_PARAMS : List String :=
  ["Id", "Status", "Reference", "Action", "PaymentAddress", "PaymentExpires"]

/-- The module constant `REQUEST_CHECKSUM_PARAMS`. -/
def REQUEST_CHECKSUM_PARAMS : List String :=
  ["Id", "Status", "Reference", "PaymentMethod", "PaymentSum", "Timestamp",
   "PaymentDescription"]

/-- Method `validate_ceepos_response`. -/
def validate_ceepos_response (cfg : Config) (response : Data) : Except PyError Bool :=
  _validate_payload cfg response RESPONSE_CHECKSUM_PARAMS

/-- Inbound HTTP request parameters (`request.GET` / `request.POST`):
Django query-dict values are strings. -/
abbrev Request := List (String × String)

/-- Python `request.GET.get(key)` / `request.POST.get(key)`. -/
def getParam (req : Request) (key : String) : Option String :=
  (List.find? (fun p => p.1 = key) req).map (fun p => p.2)

/-- Method `validate_ceepos_request`: validates the request parameters (all
string-valued) against `REQUEST_CHECKSUM_PARAMS`. -/
def validate_ceepos_request (cfg : Config) (req : Request) : Except PyError Bool :=
  _validate_payload cfg (req.map (fun p => (p.1, Value.str p.2)))
    REQUEST_CHECKSUM_PARAMS

/-! ### Order data read by the payload builder -/

/-- The product fields `initiate_payment` reads.  `taxPpm` is
`int(product.tax_percentage * 1_000_000)` (parts-per-million);
`priceSubUnits` is `price_as_sub_units(product.get_price_for_reservation(
reservation))`, already converted by the external price collaborator. -/
structure CeeposProduct where
  sku : String
  name : String
  taxPpm : Int
  priceSubUnits : Int
deriving DecidableEq

structure CeeposOrderLine where
  product : CeeposProduct
  quantity : Int
deriving DecidableEq

/-- The billing contact fields of the reservation. -/
structure ReservationInfo where
  billingEmail : String
  billingFirstName : String
  billingLastName : String
deriving DecidableEq

/-- The order fields read during payment initiation.  `orderNumber` is
opaque (string or numeric); `initiate_payment` stringifies it. -/
structure CeeposOrder where
  orderNumber : Value
  lines : List CeeposOrderLine
  reservation : ReservationInfo
deriving DecidableEq

/-! ### Payload builder -/

/-- The tax-percentage → tax-code table from `get_product_taxcode`,
keyed on parts-per-million. -/
def taxcodeTable (ppm : Int) : Option String :=
  if ppm = 24000000 then some "24"
  else if ppm = 14000000 then some "14"
  else if ppm = 10000000 then some "10"
  else if ppm = 0 then some "0"
  else none

/-- Function `get_product_taxcode`: looks the rate up in the table and raises
`ValueError` when the lookup yields nothing (`if not taxcode`). -/
def get_product_taxcode (ppm : Int) : Except PyError String :=
  match taxcodeTable ppm with
  | some code => .ok code
  | none => .error .valueError

/-- One entry of the `Products` list: the ordered dict literal built per
order line inside `payload_add_products`. -/
def productItem (ol : CeeposOrderLine) : Except PyError (List (String × Value)) :=
  match get_product_taxcode ol.product.taxPpm with
  | .error e => .error e
  | .ok taxcode =>
      .ok [("Code", .str ol.product.sku),
           ("Amount", .int ol.quantity),
           ("Price", .int ol.product.priceSubUnits),
           ("Description", .str ol.product.name),
           ("Taxcode", .str taxcode)]

/-- The `items` accumulation loop of `payload_add_products`: stops at the
first line whose tax rate has no code (the `ValueError` propagates). -/
def buildItems : List CeeposOrderLine → Except PyError (List (List (String × Value)))
  | [] => .ok []
  | ol :: rest =>
      match productItem ol with
      | .error e => .error e
      | .ok item =>
          match buildItems rest with
          | .error e => .error e
          | .ok items => .ok (item :: items)

/-- Method `payload_add_products`: appends the `Products` key.  The assignment
`payload["Products"] = items` sits inside the loop, so an order with no
lines leaves the payload without a `Products` key. -/
def payload_add_products (payload : Payload) (order : CeeposOrder) :
    Except PyError Payload :=
  match buildItems order.lines with
  | .error e => .error e
  | .ok [] => .ok payload
  | .ok items => .ok (payload ++ [("Products", Field.list items)])

/-- Method `payload_add_customer`: the dict update appends the three new
keys in the order of the literal (they are not present yet). -/
def payload_add_customer (payload : Payload) (order : CeeposOrder) : Payload :=
  payload ++
    [("Email", .scalar (.str order.reservation.billingEmail)),
     ("FirstName", .scalar (.str order.reservation.billingFirstName)),
     ("LastName", .scalar (.str order.reservation.billingLastName))]

/-- Method `payload_add_return_and_notification_urls`. -/
def payload_add_urls (payload : Payload) (cfg : Config) : Payload :=
  payload ++
    [("ReturnAddress", .scalar (.str cfg.successUrl)),
     ("NotificationAddress", .scalar (.str cfg.notifyUrl))]

/-- The value-flattening loop of `payload_add_checksum`: scalars contribute
their value, a list-valued field contributes the values of each item in
the insertion order of that item (`checksum_calc_values.extend(item.values())`). -/
def checksumCalcValues : Payload → List Value
  | [] => []
  | (_, .scalar v) :: rest => v :: checksumCalcValues rest
  | (_, .list items) :: rest =>
      (items.map (fun item => item.map (fun p => p.2))).flatten ++ checksumCalcValues rest

/-- Method `payload_add_checksum`: flattens the payload values in insertion
order and appends the `Hash` field computed over them with the secret. -/
def payload_add_checksum (payload : Payload) (secret : String) : Payload :=
  payload ++
    [("Hash", .scalar (.str (calculate_checksum (checksumCalcValues payload) secret).1))]

/-- The payload-construction part of `initiate_payment` (lines 74-86):
the base dict literal, then products, customer, URLs and checksum. -/
def initiate_payment_payload (cfg : Config) (order : CeeposOrder) :
    Except PyError Payload :=
  let base : Payload :=
    [("ApiVersion", .scalar (.str "3.0.0")),
     ("Source", .scalar (.str cfg.apiKey)),
     ("Id", .scalar (.str (valueStr order.orderNumber))),
     ("Mode", .scalar (.int 3)),
     ("Action", .scalar (.str "new payment"))]
  match payload_add_products base order with
  | .error e => .error e
  | .ok p => .ok (payload_add_checksum (payload_add_urls (payload_add_customer p order) cfg) cfg.secret)

/-! ### Initiation response handling -/

/-- The outcome of `requests.post(...)` followed by `raise_for_status()`:
either a decoded JSON body, or a `RequestException` (connection failure,
timeout, or a non-2xx HTTP status). -/
inductive NetResult where
  | ok (body : Data)
  | requestError
deriving DecidableEq

/-- Method `handle_initiate_payment_response`: maps the response `Status` to a
payment address or a typed error.  Status 2 verifies the response checksum
before trusting `PaymentAddress`; 0, 97, 98 and 99 raise their dedicated
errors; anything else raises `UnknownReturnCodeError`. -/
def handle_initiate_payment_response (cfg : Config) (response : Data) :
    Except PyError Value :=
  match lookupData response "Status" with
  | none => .error .keyError
  | some status_code =>
      if status_code = .int 2 then
        match validate_ceepos_response cfg response with
        | .error e => .error e
        | .ok false => .error .payloadValidation
        | .ok true =>
            match lookupData response "PaymentAddress" with
            | none => .error .keyError
            | some addr => .ok addr
      else if status_code = .int 0 then .error .paymentCreationFailed
      else if status_code = .int 97 then .error .duplicateOrder
      else if status_code = .int 98 then .error .serviceUnavailable
      else if status_code = .int 99 then .error .payloadValidation
      else .error .unknownReturnCode

/-! ### Order state machine and store -/

inductive OrderState where
  | waiting
  | confirmed
  | rejected
  | expired
deriving DecidableEq

/-- Modelled from the spec: `Order.set_state` lives in `payments/models.py`,
which is not under `src/`.  Per spec §4.4 (and the provider test
parametrizations), WAITING may transition to CONFIRMED, REJECTED or
EXPIRED; a transition to the current state is an idempotent no-op; every
other transition (in particular any transition out of the absorbing
terminal states CONFIRMED, REJECTED and EXPIRED) raises
`OrderStateTransitionError`. -/
def set_state (current target : OrderState) : Except PyError OrderState :=
  if current = target then .ok current
  else if current = .waiting then .ok target
  else .error .orderStateTransition

/-- The order store (`Order.objects`), keyed by order number as a string. -/
abbrev OrderStore := List (String × OrderState)

/-- Django `Order.objects.get(order_number=num)`, `none` for `DoesNotExist`. -/
def lookupOrder (store : OrderStore) (num : String) : Option OrderState :=
  (List.find? (fun p => p.1 = num) store).map (fun p => p.2)

/-- Persisting a state change for one order. -/
def setOrderState (store : OrderStore) (num : String) (st : OrderState) : OrderStore :=
  store.map (fun p => if p.1 = num then (p.1, st) else p)

/-! ### The three entry points -/

/-- Method `initiate_payment`, with the network as an explicit parameter and the
order store threaded through.  The source performs no order mutation on
this path, so the store passes through unchanged; a `RequestException`
from the POST or from `raise_for_status` becomes `ServiceUnavailableError`,
while the `ValueError` of an unmapped tax rate propagates uncaught. -/
def initiate_payment (cfg : Config) (order : CeeposOrder)
    (net : Payload → NetResult) (store : OrderStore) :
    Except PyError Value × OrderStore :=
  match initiate_payment_payload cfg order with
  | .error e => (.error e, store)
  | .ok payload =>
      match net payload with
      | .requestError => (.error .serviceUnavailable, store)
      | .ok body => (handle_initiate_payment_response cfg body, store)

/-- What `handle_success_request` hands to the web layer: a redirect to
the UI success or failure URL, or an exception escaping the handler. -/
inductive ReturnOutcome where
  | uiSuccess (orderNumber : String)
  | uiFailure
  | exception (e : PyError)
deriving DecidableEq

/-- Method `handle_success_request` (GET user-return callback).  Checksum failure
and an unknown order redirect to failure; status "1"/"0" request the
CONFIRMED/REJECTED transition, catching `OrderStateTransitionError`;
"98" and unrecognized codes only log.  `request.GET["Id"]` and
`request.GET["Status"]` are direct subscripts, so a missing parameter
raises `KeyError`. -/
def handle_success_request (cfg : Config) (req : Request) (store : OrderStore) :
    ReturnOutcome × OrderStore :=
  match validate_ceepos_request cfg req with
  | .error e => (.exception e, store)
  | .ok false => (.uiFailure, store)
  | .ok true =>
      match getParam req "Id" with
      | none => (.exception .keyError, store)
      | some num =>
          match lookupOrder store num with
          | none => (.uiFailure, store)
          | some current =>
              match getParam req "Status" with
              | none => (.exception .keyError, store)
              | some status_code =>
                  if status_code = "1" then
                    match set_state current .confirmed with
                    | .ok st => (.uiSuccess num, setOrderState store num st)
                    | .error _ => (.uiFailure, store)
                  else if status_code = "0" then
                    match set_state current .rejected with
                    | .ok st => (.uiFailure, setOrderState store num st)
                    | .error _ => (.uiFailure, store)
                  else (.uiFailure, store)

/-- What `handle_notify_request` hands to the web layer: an
`HttpResponse(status=...)`, or an exception escaping the handler. -/
inductive HttpOutcome where
  | response (status : Nat)
  | exception (e : PyError)
deriving DecidableEq

/-- Method `handle_notify_request` (POST notification callback).  Checksum
failure, unknown order, illegal transition and unrecognized status codes
all still answer HTTP 200; the `Id` and `Status` parameters are read with
`.get`, so only the `data["Hash"]` subscript inside validation can raise. -/
def handle_notify_request (cfg : Config) (req : Request) (store : OrderStore) :
    HttpOutcome × OrderStore :=
  match validate_ceepos_request cfg req with
  | .error e => (.exception e, store)
  | .ok false => (.response 200, store)
  | .ok true =>
      match getParam req "Id" with
      | none => (.response 200, store)
      | some num =>
          match lookupOrder store num with
          | none => (.response 200, store)
          | some current =>
              match getParam req "Status" with
              | none => (.response 200, store)
              | some status_code =>
                  if status_code = "1" then
                    match set_state current .confirmed with
                    | .ok st => (.response 200, setOrderState store num st)
                    | .error _ => (.response 200, store)
                  else if status_code = "0" then
                    match set_state current .rejected with
                    | .ok st => (.response 200, setOrderState store num st)
                    | .error _ => (.response 200, store)
                  else (.response 200, store)

/-! ### Concrete fixtures (mirroring the test fixtures of the repository) -/

/-- The provider configuration used by the repository tests. -/
def cfg0 : Config :=
  ⟨"dummy-key", "123", "https://return.example/success", "https://return.example/notify"⟩

/-- An order with one 24% line, used to instantiate universally quantified
theorems at a concrete input. -/
def order0 : CeeposOrder :=
  ⟨.str "abc123",
   [⟨⟨"sku1", "Test product", 24000000, 1200⟩, 2⟩],
   ⟨"test@example.com", "Seppo", "Testi"⟩⟩

/-- The single `Products` entry of `order0`. -/
def items0 : List (List (String × Value)) :=
  [[("Code", .str "sku1"), ("Amount", .int 2), ("Price", .int 1200),
    ("Description", .str "Test product"), ("Taxcode", .str "24")]]

/-- An order with no order lines (payload building cannot fail on it). -/
def orderEmpty : CeeposOrder :=
  ⟨.str "1", [], ⟨"test@example.com", "Seppo", "Testi"⟩⟩

/-- The payload of `test_payload_add_checksum_success`, before the hash. -/
def repoTestPayload : Payload :=
  [("ApiVersion", .scalar (.str "2.1.2")),
   ("Source", .scalar (.str "examplecom")),
   ("Id", .scalar (.str "12345")),
   ("Mode", .scalar (.int 3)),
   ("Action", .scalar (.str "new payment")),
   ("Description", .scalar (.str "Charlie Customer")),
   ("Products", .list [
      [("Code", .str "1111"), ("Amount", .int 1), ("Price", .int 100),
       ("Description", .str "Product-specific info")],
      [("Code", .str "1212"), ("Price", .int 150), ("Taxcode", .str "10")]]),
   ("Email", .scalar (.str "charlie.customer@example.com")),
   ("FirstName", .scalar (.str "Charlie")),
   ("LastName", .scalar (.str "Customer")),
   ("ReturnAddress", .scalar (.str "https://www.example.com/return-path")),
   ("NotificationAddress", .scalar (.str "https://www.example.com/notification-path"))]

/-! ### Validation of the embedding against repository test vectors -/

/-- FIPS 180-4 test vector: SHA-256 of "abc". -/
theorem sha256_abc_vector :
    sha256hex (utf8Encode "abc")
      = "ba7816bf8f01cfea414140de5dae2223b00361a396177a9cb410ff61f20015ad" := by
  decide

/-- The digest expected by `test_calculate_checksum_success`. -/
theorem calculate_checksum_repo_vector :
    (calculate_checksum [.str "test", .int 123, .str "abc123"] "123").1
      = "b020844c98e7959e95967296c2bb50301287f455ee9fbaafa4b6bc1041f7d5d9" := by
  decide

/-- The hash expected by `test_payload_add_checksum_success`: the full
flattening-plus-checksum pipeline reproduces the expected vector. -/
theorem payload_add_checksum_repo_vector :
    lookupField (payload_add_checksum repoTestPayload "123") "Hash"
      = some (.scalar (.str
          "734a651b873a5410d4894ece8261ccd34901942b49871c7c05c68a2a3a6c3561")) := by
  decide

/-! ### Claim theorems -/

/-- C4: the status-to-error mapping of the initiation response interpreter is
total and exhaustive: Status 0 fails with `PaymentCreationFailed`, 97 with
`DuplicateOrder`, 98 with `ServiceUnavailable`, 99 with
`PayloadValidation`, and every integer status outside {0, 2, 97, 98, 99}
with `UnknownReturnCode`. -/
theorem interpret_status_error_mapping (cfg : Config) (response : Data) (s : Int)
    (hs : lookupData response "Status" = some (.int s)) :
    (s = 0 → handle_initiate_payment_response cfg response
        = .error .paymentCreationFailed) ∧
    (s = 97 → handle_initiate_payment_response cfg response
        = .error .duplicateOrder) ∧
    (s = 98 → handle_initiate_payment_response cfg response
        = .error .serviceUnavailable) ∧
    (s = 99 → handle_initiate_payment_response cfg response
        = .error .payloadValidation) ∧
    (s ∉ ([0, 2, 97, 98, 99] : List Int) →
      handle_initiate_payment_response cfg response
        = .error .unknownReturnCode) := by
  unfold handle_initiate_payment_response
  rw [hs]
  refine ⟨?_, ?_, ?_, ?_, ?_⟩ <;> intro h
  · simp [h]
  · simp [h]
  · simp [h]
  · simp [h]
  · simp only [List.mem_cons, List.not_mem_nil, or_false, not_or] at h
    obtain ⟨h0, h2, h97, h98, h99⟩ := h
    simp [h0, h2, h97, h98, h99]

/-- C4 witness: a response with the unmapped status 15 fails with
`UnknownReturnCode`. -/
theorem interpret_status_error_mapping_witness :
    handle_initiate_payment_response cfg0 [("Status", .int 15)]
      = .error .unknownReturnCode :=
  (interpret_status_error_mapping cfg0 [("Status", .int 15)] 15 rfl).2.2.2.2 (by decide)

/-- C9 counterexample: contrary to the claim, a response with Status 1
does fail with `UnknownReturnCode`. -/
theorem status1_unknown_return_code_cex :
    handle_initiate_payment_response cfg0 [("Status", .int 1)]
      = .error .unknownReturnCode := rfl

/-- C9 (amended): the initiation response interpreter does not treat
status 1 as success-class: every response with Status 1 fails with
`UnknownReturnCode` (1 is success-class only for the return and notify
callbacks). -/
theorem status1_raises_unknown_return_code (cfg : Config) (response : Data)
    (hs : lookupData response "Status" = some (.int 1)) :
    handle_initiate_payment_response cfg response = .error .unknownReturnCode := by
  unfold handle_initiate_payment_response
  rw [hs]
  simp

/-- C9 witness for the amended claim. -/
theorem status1_raises_unknown_return_code_witness :
    handle_initiate_payment_response cfg0 [("Status", .int 1), ("Hash", .str "x")]
      = .error .unknownReturnCode :=
  status1_raises_unknown_return_code cfg0 [("Status", .int 1), ("Hash", .str "x")] rfl

/-- C6: verifying a checksum that `calculate_checksum` produced over the
same value sequence and the same secret succeeds: whenever the `Hash`
field holds the digest computed over exactly the values that
`_validate_payload` extracts for its parameter list, validation returns
`True`. -/
theorem verify_of_compute_succeeds (cfg : Config) (data : Data)
    (params : List String)
    (hh : lookupData data "Hash" = some (.str
      (calculate_checksum (params.filterMap (fun x => lookupData data x))
        cfg.secret).1)) :
    _validate_payload cfg data params = .ok true := by
  unfold _validate_payload
  rw [hh]
  simp [compare_digest]

/-- C6 witness: a concrete payload whose hash was produced by
`calculate_checksum` validates. -/
theorem verify_of_compute_succeeds_witness :
    _validate_payload cfg0
      [("Hash", .str (calculate_checksum [.str "test"] "123").1),
       ("Id", .str "test")] ["Id"] = .ok true :=
  verify_of_compute_succeeds cfg0
    [("Hash", .str (calculate_checksum [.str "test"] "123").1),
     ("Id", .str "test")] ["Id"] rfl

/-- C10: `calculate_checksum` appends the secret to the caller-supplied
list in place, so after any call the list ends with the secret; invoking
it a second time with the same (now extended) list therefore hashes the
the secret appended by the first call as an ordinary value and, at the
test input of the repository, yields a different digest. -/
theorem calculate_checksum_mutation :
    (∀ (values : List Value) (secret : String),
      (calculate_checksum values secret).2 = values ++ [Value.str secret]) ∧
    (calculate_checksum
        ((calculate_checksum [.str "test", .int 123, .str "abc123"] "123").2)
        "123").1
      ≠ (calculate_checksum [.str "test", .int 123, .str "abc123"] "123").1 := by
  constructor
  · intro values secret
    rfl
  · decide

/-- C2: on an initiation response with Status 2, the interpreter checks
the response checksum over `Id, Status, Reference, Action, PaymentAddress,
PaymentExpires` (in that fixed order, with the secret) before returning
the payment address; whenever that check fails it raises
`PayloadValidation`, and it returns a payment address only when the check
passed. -/
theorem status2_checksum_gate (cfg : Config) (response : Data)
    (hs : lookupData response "Status" = some (.int 2)) :
    (validate_ceepos_response cfg response = .ok false →
      handle_initiate_payment_response cfg response = .error .payloadValidation) ∧
    (∀ addr, handle_initiate_payment_response cfg response = .ok addr →
      validate_ceepos_response cfg response = .ok true ∧
      lookupData response "PaymentAddress" = some addr) ∧
    (validate_ceepos_response cfg response =
      _validate_payload cfg response
        ["Id", "Status", "Reference", "Action", "PaymentAddress", "PaymentExpires"]) ∧
    (∀ received, lookupData response "Hash" = some (.str received) →
      validate_ceepos_response cfg response =
        .ok (compare_digest received
          (calculate_checksum
            (RESPONSE_CHECKSUM_PARAMS.filterMap (fun x => lookupData response x))
            cfg.secret).1)) := by
  refine ⟨?_, ?_, rfl, ?_⟩
  · intro hv
    unfold handle_initiate_payment_response
    rw [hs]
    simp [hv]
  · intro addr haddr
    unfold handle_initiate_payment_response at haddr
    rw [hs] at haddr
    simp only [if_pos rfl] at haddr
    cases hv : validate_ceepos_response cfg response with
    | error e => rw [hv] at haddr; exact absurd haddr (by simp)
    | ok b =>
        rw [hv] at haddr
        cases b with
        | false => exact absurd haddr (by simp)
        | true =>
            refine ⟨rfl, ?_⟩
            cases hpa : lookupData response "PaymentAddress" with
            | none => rw [hpa] at haddr; exact absurd haddr (by simp)
            | some a =>
                rw [hpa] at haddr
                cases haddr
                rfl
  · intro received hr
    unfold validate_ceepos_response _validate_payload
    rw [hr]

/-- C2 witness: the tampered-digest response from the
incorrect-checksum repository test raises `PayloadValidation`. -/
theorem status2_checksum_gate_witness :
    handle_initiate_payment_response cfg0
      [("Status", .int 2),
       ("PaymentAddress", .str "https://www.example.com/checkout"),
       ("Hash", .str "12345")] = .error .payloadValidation :=
  (status2_checksum_gate cfg0
      [("Status", .int 2),
       ("PaymentAddress", .str "https://www.example.com/checkout"),
       ("Hash", .str "12345")] rfl).1 (by decide)

/-- Looking a key up in the request parameters after they are wrapped as
checksum `Value`s agrees with `getParam`. -/
theorem lookupData_map_str (req : Request) (key : String) :
    lookupData (req.map (fun p => (p.1, Value.str p.2))) key
      = (getParam req key).map Value.str := by
  induction req with
  | nil => rfl
  | cons p rest ih =>
      by_cases h : p.1 = key
      · simp [lookupData, getParam, List.find?, h]
      · simpa [lookupData, getParam, List.find?, h] using ih

/-- When the request carries a `Hash` parameter, checksum validation
cannot raise: it returns some boolean. -/
theorem validate_request_isOk (cfg : Config) (req : Request)
    (hhash : (getParam req "Hash").isSome) :
    ∃ b, validate_ceepos_request cfg req = .ok b := by
  obtain ⟨h, hh⟩ := Option.isSome_iff_exists.mp hhash
  unfold validate_ceepos_request _validate_payload
  rw [lookupData_map_str, hh]
  exact ⟨_, rfl⟩

/-- C3 counterexample: a notify request with no `Hash` parameter makes
`data["Hash"]` raise `KeyError` out of `handle_notify_request`, so the
handler does not acknowledge with HTTP 200 for every inbound request. -/
theorem notify_missing_hash_raises :
    handle_notify_request cfg0 [("Id", "abc123"), ("Status", "1")]
        [("abc123", .waiting)]
      = (.exception .keyError, [("abc123", .waiting)]) := rfl

/-- C3 (amended): for every inbound notify request that carries a `Hash`
parameter, `handle_notify_request` answers HTTP 200 and never raises,
regardless of internal outcome — checksum verification failure, an order
id that resolves to no order, an illegal state transition, and an
unrecognized status code included. -/
theorem notify_with_hash_returns_200 (cfg : Config) (req : Request)
    (store : OrderStore) (hhash : (getParam req "Hash").isSome) :
    (handle_notify_request cfg req store).1 = .response 200 := by
  obtain ⟨b, hb⟩ := validate_request_isOk cfg req hhash
  unfold handle_notify_request
  rw [hb]
  cases b with
  | false => rfl
  | true =>
      cases hid : getParam req "Id" with
      | none => rfl
      | some num =>
          cases hord : lookupOrder store num with
          | none => simp [hord]
          | some current =>
              cases hst : getParam req "Status" with
              | none => simp [hord, hst]
              | some sc =>
                  by_cases h1 : sc = "1"
                  · cases hss : set_state current .confirmed <;>
                      simp [hord, hst, h1, hss]
                  · by_cases h0 : sc = "0"
                    · cases hss : set_state current .rejected <;>
                        simp [hord, hst, h1, h0, hss]
                    · simp [hord, hst, h1, h0]

/-- C3 witness for the amended claim: a notify request whose checksum is
wrong (but which does carry a `Hash`) is still acknowledged with 200. -/
theorem notify_with_hash_returns_200_witness :
    (handle_notify_request cfg0
        [("Id", "abc123"), ("Status", "1"), ("Hash", "tampered")]
        [("abc123", .waiting)]).1 = .response 200 :=
  notify_with_hash_returns_200 cfg0
    [("Id", "abc123"), ("Status", "1"), ("Hash", "tampered")]
    [("abc123", .waiting)] (by decide)

/-- C5: an order in EXPIRED is absorbing for both callback handlers: with
any status code, the user-return handler and the notify handler leave the
store unchanged (the illegal transition into CONFIRMED or REJECTED is
caught, never raised), and the notify handler still answers HTTP 200. -/
theorem expired_state_absorbing (cfg : Config) (req : Request)
    (store : OrderStore) (num : String)
    (hid : getParam req "Id" = some num)
    (hexp : lookupOrder store num = some .expired)
    (hhash : (getParam req "Hash").isSome) :
    handle_notify_request cfg req store = (.response 200, store) ∧
    (handle_success_request cfg req store).2 = store := by
  obtain ⟨b, hb⟩ := validate_request_isOk cfg req hhash
  constructor
  · unfold handle_notify_request
    rw [hb]
    cases b with
    | false => rfl
    | true =>
        cases hst : getParam req "Status" with
        | none => simp [hid, hexp, hst]
        | some sc =>
            by_cases h1 : sc = "1"
            · simp [hid, hexp, hst, h1, set_state]
            · by_cases h0 : sc = "0"
              · simp [hid, hexp, hst, h1, h0, set_state]
              · simp [hid, hexp, hst, h1, h0]
  · unfold handle_success_request
    rw [hb]
    cases b with
    | false => rfl
    | true =>
        cases hst : getParam req "Status" with
        | none => simp [hid, hexp, hst]
        | some sc =>
            by_cases h1 : sc = "1"
            · simp [hid, hexp, hst, h1, set_state]
            · by_cases h0 : sc = "0"
              · simp [hid, hexp, hst, h1, h0, set_state]
              · simp [hid, hexp, hst, h1, h0]

/-- C5 witness: a successful-payment notification and user return for an
expired order leave it EXPIRED, and notify still answers 200. -/
theorem expired_state_absorbing_witness :
    handle_notify_request cfg0
        [("Id", "abc123"), ("Status", "1"), ("Hash", "x")] [("abc123", .expired)]
      = (.response 200, [("abc123", .expired)]) ∧
    (handle_success_request cfg0
        [("Id", "abc123"), ("Status", "1"), ("Hash", "x")]
        [("abc123", .expired)]).2 = [("abc123", .expired)] :=
  expired_state_absorbing cfg0
    [("Id", "abc123"), ("Status", "1"), ("Hash", "x")]
    [("abc123", .expired)] "abc123" rfl rfl (by decide)

/-- The only exception `get_product_taxcode` raises is `ValueError`. -/
theorem get_product_taxcode_error (ppm : Int) (e : PyError)
    (h : get_product_taxcode ppm = .error e) : e = .valueError := by
  unfold get_product_taxcode at h
  cases ht : taxcodeTable ppm with
  | some c => rw [ht] at h; cases h
  | none => rw [ht] at h; cases h; rfl

/-- The only exception a `Products` entry construction raises is the
taxcode `ValueError`. -/
theorem productItem_error (ol : CeeposOrderLine) (e : PyError)
    (h : productItem ol = .error e) : e = .valueError := by
  unfold productItem at h
  cases ht : get_product_taxcode ol.product.taxPpm with
  | error e2 =>
      rw [ht] at h
      cases h
      exact get_product_taxcode_error _ _ ht
  | ok c => rw [ht] at h; cases h

/-- An unmapped tax rate on any order line makes the whole item loop fail
with `ValueError` (the line is never dropped). -/
theorem buildItems_error_of_mem (ls : List CeeposOrderLine)
    (ol : CeeposOrderLine) (hmem : ol ∈ ls)
    (hbad : productItem ol = .error .valueError) :
    buildItems ls = .error .valueError := by
  induction ls with
  | nil => cases hmem
  | cons a rest ih =>
      unfold buildItems
      rcases List.mem_cons.mp hmem with h | h
      · subst h
        rw [hbad]
      · cases hpa : productItem a with
        | error e =>
            have := productItem_error a e hpa
            subst this
            rfl
        | ok item =>
            rw [ih h]

/-- A product whose tax rate is not one of the four mapped rates fails
the `Products` entry construction with `ValueError`. -/
theorem productItem_error_of_bad_tax (ol : CeeposOrderLine)
    (hbad : ol.product.taxPpm ∉ ([24000000, 14000000, 10000000, 0] : List Int)) :
    productItem ol = .error .valueError := by
  simp only [List.mem_cons, List.not_mem_nil, or_false, not_or] at hbad
  obtain ⟨h24, h14, h10, h0⟩ := hbad
  unfold productItem get_product_taxcode taxcodeTable
  simp [h24, h14, h10, h0]

/-- C7: the tax-code table maps 24% to "24", 14% to "14", 10% to "10" and
0% to "0" (as parts-per-million integers); every other rate fails with
`ValueError`; and an order containing such a line makes `initiate_payment`
fail with that validation error no matter what the network does — the
outbound call is never reached and the line never silently dropped. -/
theorem taxcode_gate (cfg : Config) (order : CeeposOrder)
    (net : Payload → NetResult) (store : OrderStore) (ol : CeeposOrderLine)
    (hmem : ol ∈ order.lines)
    (hbad : ol.product.taxPpm ∉ ([24000000, 14000000, 10000000, 0] : List Int)) :
    (get_product_taxcode 24000000 = .ok "24" ∧
     get_product_taxcode 14000000 = .ok "14" ∧
     get_product_taxcode 10000000 = .ok "10" ∧
     get_product_taxcode 0 = .ok "0") ∧
    (∀ ppm : Int, ppm ∉ ([24000000, 14000000, 10000000, 0] : List Int) →
      get_product_taxcode ppm = .error .valueError) ∧
    initiate_payment cfg order net store = (.error .valueError, store) := by
  refine ⟨⟨rfl, rfl, rfl, rfl⟩, ?_, ?_⟩
  · intro ppm hp
    simp only [List.mem_cons, List.not_mem_nil, or_false, not_or] at hp
    obtain ⟨h24, h14, h10, h0⟩ := hp
    unfold get_product_taxcode taxcodeTable
    simp [h24, h14, h10, h0]
  · unfold initiate_payment initiate_payment_payload payload_add_products
    rw [buildItems_error_of_mem order.lines ol hmem
      (productItem_error_of_bad_tax ol hbad)]

/-- C7 witness: an order with a 25% line fails with `ValueError` under a
network stub that would report unreachable. -/
theorem taxcode_gate_witness :
    initiate_payment cfg0
      ⟨.str "abc123", [⟨⟨"sku1", "Bad tax", 25000000, 1200⟩, 1⟩],
       ⟨"test@example.com", "Seppo", "Testi"⟩⟩
      (fun _ => .requestError) [] = (.error .valueError, []) :=
  (taxcode_gate cfg0
    ⟨.str "abc123", [⟨⟨"sku1", "Bad tax", 25000000, 1200⟩, 1⟩],
     ⟨"test@example.com", "Seppo", "Testi"⟩⟩
    (fun _ => .requestError) [] ⟨⟨"sku1", "Bad tax", 25000000, 1200⟩, 1⟩
    (by decide) (by decide)).2.2

/-- C8: when the payload was built but the outbound POST fails, times out,
or yields an HTTP error status (`raise_for_status`), `initiate_payment`
raises `ServiceUnavailable` — never the raw transport error — and the
order store is exactly what it was before the call. -/
theorem unreachable_raises_service_unavailable (cfg : Config)
    (order : CeeposOrder) (net : Payload → NetResult) (store : OrderStore)
    (payload : Payload)
    (hp : initiate_payment_payload cfg order = .ok payload)
    (hnet : net payload = .requestError) :
    initiate_payment cfg order net store = (.error .serviceUnavailable, store) := by
  unfold initiate_payment
  rw [hp]
  simp [hnet]

/-- C8 witness: an always-unreachable network makes initiation fail with
`ServiceUnavailable` and leaves the (empty) store untouched. -/
theorem unreachable_raises_service_unavailable_witness :
    initiate_payment cfg0 orderEmpty (fun _ => .requestError) []
      = (.error .serviceUnavailable, []) :=
  unreachable_raises_service_unavailable cfg0 orderEmpty
    (fun _ => .requestError) [] _ rfl rfl

/-- The item loop yields one `Products` entry per order line. -/
theorem buildItems_length (ls : List CeeposOrderLine)
    (items : List (List (String × Value)))
    (h : buildItems ls = .ok items) : items.length = ls.length := by
  induction ls generalizing items with
  | nil => cases h; rfl
  | cons a rest ih =>
      unfold buildItems at h
      cases hpa : productItem a with
      | error e => rw [hpa] at h; cases h
      | ok item =>
          rw [hpa] at h
          cases hbr : buildItems rest with
          | error e => rw [hbr] at h; cases h
          | ok tail =>
              rw [hbr] at h
              cases h
              simp [ih tail hbr]

/-- Every `Products` entry is the ordered mapping
Code, Amount, Price, Description, Taxcode. -/
theorem buildItems_keys (ls : List CeeposOrderLine)
    (items : List (List (String × Value)))
    (h : buildItems ls = .ok items) :
    ∀ item ∈ items, item.map (fun p => p.1)
      = ["Code", "Amount", "Price", "Description", "Taxcode"] := by
  induction ls generalizing items with
  | nil => cases h; intro item hi; cases hi
  | cons a rest ih =>
      unfold buildItems at h
      cases hpa : productItem a with
      | error e => rw [hpa] at h; cases h
      | ok item =>
          rw [hpa] at h
          cases hbr : buildItems rest with
          | error e => rw [hbr] at h; cases h
          | ok tail =>
              rw [hbr] at h
              cases h
              intro it hit
              rcases List.mem_cons.mp hit with heq | hmem
              · subst heq
                unfold productItem at hpa
                cases ht : get_product_taxcode a.product.taxPpm with
                | error e => rw [ht] at hpa; cases hpa
                | ok c => rw [ht] at hpa; cases hpa; rfl
              · exact ih tail hbr it hmem

/-- C1: for an order with at least one line whose products all map to tax
codes, the initiation payload inserts exactly the fields ApiVersion,
Source, Id (stringified order number), Mode, Action, Products, Email,
FirstName, LastName, ReturnAddress, NotificationAddress, Hash, in that
order; each `Products` entry is the ordered mapping Code, Amount, Price,
Description, Taxcode (one entry per line); and the Hash is the checksum,
with the secret, over the values of all previously inserted fields in
insertion order, each `Products` entry contributing its values in that
own insertion order of that entry. -/
theorem initiate_payload_field_order (cfg : Config) (order : CeeposOrder)
    (items : List (List (String × Value)))
    (hitems : buildItems order.lines = .ok items)
    (hne : order.lines ≠ []) :
    initiate_payment_payload cfg order = .ok
      [("ApiVersion", .scalar (.str "3.0.0")),
       ("Source", .scalar (.str cfg.apiKey)),
       ("Id", .scalar (.str (valueStr order.orderNumber))),
       ("Mode", .scalar (.int 3)),
       ("Action", .scalar (.str "new payment")),
       ("Products", .list items),
       ("Email", .scalar (.str order.reservation.billingEmail)),
       ("FirstName", .scalar (.str order.reservation.billingFirstName)),
       ("LastName", .scalar (.str order.reservation.billingLastName)),
       ("ReturnAddress", .scalar (.str cfg.successUrl)),
       ("NotificationAddress", .scalar (.str cfg.notifyUrl)),
       ("Hash", .scalar (.str (calculate_checksum
          ([.str "3.0.0", .str cfg.apiKey, .str (valueStr order.orderNumber),
            .int 3, .str "new payment"] ++
           (items.map (fun item => item.map (fun p => p.2))).flatten ++
           [.str order.reservation.billingEmail,
            .str order.reservation.billingFirstName,
            .str order.reservation.billingLastName,
            .str cfg.successUrl, .str cfg.notifyUrl]) cfg.secret).1))] ∧
    items.length = order.lines.length ∧
    (∀ item ∈ items, item.map (fun p => p.1)
      = ["Code", "Amount", "Price", "Description", "Taxcode"]) := by
  have hlen := buildItems_length order.lines items hitems
  refine ⟨?_, hlen, buildItems_keys order.lines items hitems⟩
  cases hi : items with
  | nil =>
      subst hi
      simp only [List.length_nil] at hlen
      exact absurd (List.eq_nil_of_length_eq_zero hlen.symm) hne
  | cons a rest =>
      subst hi
      unfold initiate_payment_payload payload_add_products
      rw [hitems]
      simp [payload_add_customer, payload_add_urls, payload_add_checksum,
        checksumCalcValues]

/-- C1 witness: the concrete one-line order builds exactly the ordered
payload, ending in the checksum over all previously inserted values. -/
theorem initiate_payload_field_order_witness :
    buildItems order0.lines = .ok items0 ∧ order0.lines ≠ [] ∧
    initiate_payment_payload cfg0 order0 = .ok
      [("ApiVersion", .scalar (.str "3.0.0")),
       ("Source", .scalar (.str "dummy-key")),
       ("Id", .scalar (.str "abc123")),
       ("Mode", .scalar (.int 3)),
       ("Action", .scalar (.str "new payment")),
       ("Products", .list items0),
       ("Email", .scalar (.str "test@example.com")),
       ("FirstName", .scalar (.str "Seppo")),
       ("LastName", .scalar (.str "Testi")),
       ("ReturnAddress", .scalar (.str "https://return.example/success")),
       ("NotificationAddress", .scalar (.str "https://return.example/notify")),
       ("Hash", .scalar (.str (calculate_checksum
          ([.str "3.0.0", .str "dummy-key", .str "abc123",
            .int 3, .str "new payment"] ++
           [.str "sku1", .int 2, .int 1200, .str "Test product", .str "24"] ++
           [.str "test@example.com", .str "Seppo", .str "Testi",
            .str "https://return.example/success",
            .str "https://return.example/notify"]) "123").1))] :=
  ⟨rfl, by decide, (initiate_payload_field_order cfg0 order0 items0 rfl (by decide)).1⟩

end Ceepos
